import Mathlib

/-!
Verification of the `jira-tools` repository against its specification.

The development shallowly embeds the pure projection / persistence logic of
`src/core/jira/jira_integration.py`, `src/core/storage/db_manager.py` and
`config.py`.  External effects (the Jira HTTP client, the DuckDB connection)
are passed in as explicit function arguments or explicit table states, and a
Python exception is modelled as the `Except.error` branch of an `Except`
return type.
-/

namespace JiraTools

/-- A JSON value as delivered by the Jira REST client (`issue.raw['fields']`
values and metadata objects).  Python `None` is `null`; a Python `dict` is an
association list of string keys. -/
inductive JValue where
  | null
  | bool (b : Bool)
  | num (n : Int)
  | str (s : String)
  | arr (items : List JValue)
  | obj (fields : List (String × JValue))

/-- `field_value is None` in Python: the raw value is JSON null. -/
def JValue.isNull : JValue → Bool
  | .null => true
  | _ => false

/-- Python truthiness (`if item_value:`): `None`, `False`, `0`, `""`, `[]`
and `{}` are falsy, everything else truthy. -/
def JValue.truthy : JValue → Bool
  | .null => false
  | .bool b => b
  | .num n => n != 0
  | .str s => !s.isEmpty
  | .arr items => !items.isEmpty
  | .obj fields => !fields.isEmpty

/-! Python string primitives, embedded over the character list of a
`String` so that they are kernel-computable. -/

/-- Python `s.startswith(p)`. -/
def pyStartsWith (s p : String) : Bool :=
  p.data.isPrefixOf s.data

/-- Python `c in s` for a single character `c`. -/
def pyContainsChar (s : String) (c : Char) : Bool :=
  s.data.contains c

/-- Python `s.split(sep)` for a one-character separator, on character
lists: every occurrence of `sep` separates two (possibly empty) chunks. -/
def pySplitChar (sep : Char) : List Char → List (List Char)
  | [] => [[]]
  | c :: rest =>
    match pySplitChar sep rest with
    | [] => if c = sep then [[], []] else [[c]]
    | chunk :: chunks =>
      if c = sep then [] :: chunk :: chunks else (c :: chunk) :: chunks

/-- Python `s.split(sep)` for a one-character separator. -/
def pySplit (s : String) (sep : Char) : List String :=
  (pySplitChar sep s.data).map String.mk

/-- The whitespace characters stripped by Python `str.strip()`. -/
def isPySpace (c : Char) : Bool :=
  c == ' ' || c == '\t' || c == '\n' || c == '\r' || c == '\x0b' || c == '\x0c'

/-- Python `s.strip()`. -/
def pyStrip (s : String) : String :=
  String.mk (((s.data.dropWhile isPySpace).reverse.dropWhile isPySpace).reverse)

/-- Python `s.lower()` (on the ASCII letters that the repository's
transition names use). -/
def pyLower (s : String) : String :=
  String.mk (s.data.map Char.toLower)

/-- `d.get(k)` / `k in d` on an embedded Python dict. -/
def jget (fields : List (String × JValue)) (k : String) : Option JValue :=
  match fields with
  | [] => none
  | (k0, v0) :: rest => if k0 = k then some v0 else jget rest k

/-- Lines 298-305 of `jira_integration.py`, the single-object branch of the
custom-field value extraction in `get_issue_details_impl`:
`if 'value' in field_value: ... elif 'name' in field_value: ...` and then the
`if 'id' in field_value:` wrap. -/
def normalizeObj (fields : List (String × JValue)) : JValue :=
  let base :=
    match jget fields "value" with
    | some v => v
    | none =>
      match jget fields "name" with
      | some v => v
      | none => JValue.obj fields
  match jget fields "id" with
  | some idv => JValue.obj [("id", idv), ("value", base)]
  | none => base

/-- Lines 308-317 of `jira_integration.py`, the per-element body of the list
branch: a dict element extracts `item.get('value', item.get('name', None))`,
is dropped when that is falsy, and is wrapped with its `id` when present;
any non-dict element passes through unchanged. -/
def processItem (item : JValue) : Option JValue :=
  match item with
  | .obj fields =>
    let item_value :=
      match jget fields "value" with
      | some v => v
      | none =>
        match jget fields "name" with
        | some v => v
        | none => JValue.null
    if item_value.truthy then
      match jget fields "id" with
      | some idv => some (JValue.obj [("id", idv), ("value", item_value)])
      | none => some item_value
    else
      none
  | other => some other

/-- Lines 306-318 of `jira_integration.py`: the list branch of the custom
field normalization, `actual_value = processed_values if processed_values
else field_value`. -/
def normalizeList (items : List JValue) : JValue :=
  let processed := items.filterMap processItem
  if processed.isEmpty then JValue.arr items else JValue.arr processed

/-- Lines 296-318 of `jira_integration.py`: `actual_value` computed from a
raw custom field value. -/
def normalizeValue (v : JValue) : JValue :=
  match v with
  | .obj fields => normalizeObj fields
  | .arr items => normalizeList items
  | other => other

/-- Line 321 of `jira_integration.py`:
`field_name.split('_')[1] if '_' in field_name else field_name` — the
segment between the first and the second underscore (or the end). -/
def fieldIdOf (field_name : String) : String :=
  if pyContainsChar field_name '_' then
    ((pySplit field_name '_').drop 1).headD field_name
  else field_name

/-- The field metadata fetched via `createmeta` (lines 277-290): a dict from
field id to the field's descriptor object. -/
def FieldMeta := List (String × List (String × JValue))

/-- Line 294 and line 323 of `jira_integration.py`:
`field_info = field_meta.get(field_name, {})` then
`field_info.get('name', field_name)`. -/
def resolveFieldName (field_meta : FieldMeta) (field_name : String) : JValue :=
  let field_info :=
    match List.lookup field_name field_meta with
    | some info => info
    | none => []
  match jget field_info "name" with
  | some v => v
  | none => JValue.str field_name

/-- The per-field record emitted at lines 320-325 of `jira_integration.py`. -/
structure CustomFieldRecord where
  id : String
  key : String
  name : JValue
  value : JValue

/-- Lines 292-325 of `jira_integration.py`: the `custom_fields` dict built by
`get_issue_details_impl` from `issue.raw['fields']`, keyed by field name.
A field participates iff its name starts with `customfield_` and its raw
value is not `None`. -/
def projectCustomFields (field_meta : FieldMeta)
    (raw_fields : List (String × JValue)) : List (String × CustomFieldRecord) :=
  raw_fields.filterMap (fun p =>
    if pyStartsWith p.1 "customfield_" ∧ ¬ p.2.isNull then
      some (p.1,
        { id := fieldIdOf p.1
          key := p.1
          name := resolveFieldName field_meta p.1
          value := normalizeValue p.2 })
    else none)

/-- Lines 240-243 and 259-261 of `jira_integration.py`:
`if not description or description.strip() == '': description = "Sem Descrição"`.
A Python `None` description is `none`; `not description` is true when the
description is `None` or the empty string. -/
def normalizeDescription (description : Option String) : String :=
  match description with
  | none => "Sem Descrição"
  | some d => if d = "" ∨ pyStrip d = "" then "Sem Descrição" else d

/-- The raw data of a subtask as fetched at lines 256-270 of
`jira_integration.py` (via a second `jira_client.issue` call).  A `none`
assignee / priority stands for Python `None`, on which
`getattr(..., 'displayName', default)` returns the default. -/
structure RawSubtask where
  key : String
  summary : String
  description : Option String
  status : String
  issuetype : String
  assignee : Option String
  priority : Option String

/-- The raw data of an issue as used by `get_issue_details_impl`
(lines 238 ff. of `jira_integration.py`).  `parent` carries the parent's key
and the `fields.summary` of `parent.raw`. -/
structure RawIssue where
  key : String
  summary : String
  description : Option String
  issuetype : String
  status : String
  project : String
  parent : Option (String × String)
  assignee : Option String
  priority : Option String
  created : String
  updated : String
  subtasks : List RawSubtask
  raw_fields : List (String × JValue)

/-- One entry of the `subtasks` list built at lines 263-271. -/
structure SubtaskDetails where
  key : String
  title : String
  description : String
  status : String
  issue_type : String
  assignee : String
  priority : String

/-- The dictionary returned by `get_issue_details_impl` (lines 327-342). -/
structure IssueDetails where
  key : String
  title : String
  description : String
  issue_type : String
  status : String
  project : String
  parent : String
  assignee : String
  priority : String
  created : String
  updated : String
  subtasks : List SubtaskDetails
  subtasks_count : Nat
  custom_fields : List (String × CustomFieldRecord)

/-- Lines 238-342 of `jira_integration.py`: the pure projection performed by
`get_issue_details_impl` once the issue (and each subtask) has been fetched.
`field_meta` is the `createmeta` result, which stays `[]` ( `{}` ) when the
metadata fetch fails (lines 288-290). -/
def get_issue_details_impl (field_meta : FieldMeta) (issue : RawIssue) :
    IssueDetails :=
  let description := normalizeDescription issue.description
  let parent_info :=
    match issue.parent with
    | some p => p.1 ++ " - " ++ p.2
    | none => "No Parent"
  let subtasks := issue.subtasks.map (fun st =>
    { key := st.key
      title := st.summary
      description := normalizeDescription st.description
      status := st.status
      issue_type := st.issuetype
      assignee := st.assignee.getD "Unassigned"
      priority := st.priority.getD "No Priority" })
  { key := issue.key
    title := issue.summary
    description := description
    issue_type := issue.issuetype
    status := issue.status
    project := issue.project
    parent := parent_info
    assignee := issue.assignee.getD "Unassigned"
    priority := issue.priority.getD "No Priority"
    created := issue.created
    updated := issue.updated
    subtasks := subtasks
    subtasks_count := subtasks.length
    custom_fields := projectCustomFields field_meta issue.raw_fields }

/-- `config.py` lines 2-16: `FIELD_BLACKLIST`, the per-issue-type field
blacklists. -/
def FIELD_BLACKLIST : List (String × List String) :=
  [("Subtarefa",
    ["customfield_10073", "customfield_10175", "customfield_10274",
     "customfield_10176", "customfield_10286", "customfield_10000",
     "customfield_10155", "customfield_10002", "customfield_10019",
     "customfield_11265", "customfield_10136"])]

/-- `config.py` lines 19-25: `GLOBAL_BLACKLIST`, fields that should always
be excluded regardless of issue type. -/
def GLOBAL_BLACKLIST : List String :=
  ["rankBeforeIssue", "rankAfterIssue", "io.tempo.jira__account",
   "customfield_10014", "customfield_10020"]

/-- `config.py` lines 27-30: `get_blacklisted_fields(issue_type)`. -/
def get_blacklisted_fields (issue_type : String) : List String :=
  ((List.lookup issue_type FIELD_BLACKLIST).getD []) ++ GLOBAL_BLACKLIST

/-! ### `src/core/storage/db_manager.py` — the DuckDB persistence layer.

Timestamps are modelled as `Nat` ticks; `CURRENT_TIMESTAMP` is the `now`
argument threaded through each call. -/

/-- A row of the `issues` table (`_ensure_db_exists`, lines 23-33).  `key`
is the primary key; `created_at` and `last_updated` default to
`CURRENT_TIMESTAMP` at insert time. -/
structure IssueRow where
  key : String
  type : String
  title : String
  parent_key : Option String
  status : Option String
  created_at : Nat
  last_updated : Nat
deriving Repr, DecidableEq

/-- A row of the `transitions` table (`_ensure_db_exists`, lines 48-57).
The `id BIGINT PRIMARY KEY` column has no sequence and no default, so an
insert that does not name it supplies SQL NULL, modelled as `none`. -/
structure TransitionRow where
  id : Option Int
  issue_key : String
  from_status : Option String
  to_status : String
  transitioned_at : Nat
deriving Repr, DecidableEq

/-- `JiraDBManager.store_issue`, lines 59-70: `INSERT ... ON CONFLICT (key)
DO UPDATE SET title = excluded.title, status = excluded.status,
last_updated = CURRENT_TIMESTAMP`.  On conflict only `title`, `status` and
`last_updated` change; `type`, `parent_key` and `created_at` keep the values
of the existing row. -/
def store_issue (issues : List IssueRow) (now : Nat) (issue_key issue_type
    title : String) (parent_key status : Option String) : List IssueRow :=
  if issues.any (fun r => r.key == issue_key) then
    issues.map (fun r =>
      if r.key == issue_key then
        { r with title := title, status := status, last_updated := now }
      else r)
  else
    issues ++ [{ key := issue_key, type := issue_type, title := title,
                 parent_key := parent_key, status := status,
                 created_at := now, last_updated := now }]

/-- DuckDB's insert into the `transitions` table.  The primary key column
`id` enforces NOT NULL and UNIQUE; DuckDB has no auto-increment on a plain
`BIGINT PRIMARY KEY`, so a row whose `id` is NULL is rejected with a
constraint error. -/
def insertTransitionRow (rows : List TransitionRow) (row : TransitionRow) :
    Except String (List TransitionRow) :=
  match row.id with
  | none =>
    Except.error "Constraint Error: NOT NULL constraint failed: transitions.id"
  | some i =>
    if rows.any (fun r => r.id == some i) then
      Except.error "Constraint Error: Duplicate key violates primary key constraint"
    else
      Except.ok (rows ++ [row])

/-- `JiraDBManager.update_issue_status`, lines 72-87.  The `UPDATE issues`
statement runs (and, each statement auto-committing, persists) first; the
`INSERT INTO transitions (issue_key, from_status, to_status)` names no `id`,
so the inserted row carries the column default NULL for `id`. -/
def update_issue_status (issues : List IssueRow)
    (transitions : List TransitionRow) (now : Nat) (issue_key new_status :
    String) (old_status : Option String) :
    Except String (List IssueRow × List TransitionRow) :=
  let issues' := issues.map (fun r =>
    if r.key == issue_key then
      { r with status := some new_status, last_updated := now }
    else r)
  match insertTransitionRow transitions
      { id := none, issue_key := issue_key, from_status := old_status,
        to_status := new_status, transitioned_at := now } with
  | Except.ok ts => Except.ok (issues', ts)
  | Except.error e => Except.error e

/-! ### `transition_jira_issue_impl` (lines 195-221). -/

/-- One element of `jira_client.transitions(issue_key)`. -/
structure Transition where
  name : String
  id : String
deriving Repr, DecidableEq

/-- Lines 209-213: the first transition whose name matches the requested one
case-insensitively, if any. -/
def findTransitionId (transitions : List Transition)
    (transition_name : String) : Option String :=
  match transitions with
  | [] => none
  | t :: rest =>
    if pyLower t.name = pyLower transition_name then some t.id
    else findTransitionId rest transition_name

/-- `transition_jira_issue_impl`, lines 195-221.  On success the returned
pair records the id of the transition that `jira_client.transition_issue`
was invoked with, and the message; when no transition matches, a
`ValueError` is raised (the `Except.error` branch) before any transition is
performed. -/
def transition_jira_issue_impl (transitions : List Transition)
    (issue_key transition_name : String) : Except String (String × String) :=
  match findTransitionId transitions transition_name with
  | none =>
    let available := String.intercalate ", " (transitions.map Transition.name)
    Except.error ("Transition '" ++ transition_name ++
      "' not found. Available transitions: " ++ available)
  | some transition_id =>
    Except.ok (transition_id,
      "Successfully transitioned " ++ issue_key ++ " using transition '" ++
        transition_name ++ "'")

/-! ### `get_last_comments_impl` (lines 34-56) and
`get_child_issues_by_parent_impl` (lines 596-647).

Each upstream `jira_client` call is passed in as a function returning
`Except String` — `Except.error` is the upstream exception (a not-found
among them).  The embedded functions return `Except String α` themselves so
that a raised Python exception would be their `Except.error` branch. -/

/-- One formatted comment (lines 48-54). -/
structure CommentOut where
  author : String
  created : String
  body : String
deriving Repr, DecidableEq

/-- `get_last_comments_impl`, lines 34-56: fetch the issue's comments, keep
the last `n` (`comments[-n:] if n > 0 else comments`), and format them.  The
whole body sits in a `try`/`except` that turns ANY exception — a not-found
included — into an ordinary string return value, so the result is always
`Except.ok`: either the formatted list or the error string. -/
def get_last_comments_impl
    (fetchComments : String → Except String (List CommentOut))
    (issue_key : String) (n : Int) : Except String (String ⊕ List CommentOut) :=
  match fetchComments issue_key with
  | Except.ok comments =>
    let last_comments :=
      if n > 0 then comments.drop (comments.length - n.toNat) else comments
    Except.ok (Sum.inr last_comments)
  | Except.error e =>
    Except.ok (Sum.inl ("❌ Failed to get comments: " ++ e))

/-- One child entry (lines 619-628). -/
structure ChildOut where
  key : String
  title : String
  status : String
  issue_type : String
  assignee : String
  priority : String
  created : String
  updated : String
deriving Repr, DecidableEq

/-- The `parent_info` block (lines 631-636). -/
structure ParentInfo where
  key : String
  title : String
  type : String
  status : String
deriving Repr, DecidableEq

/-- The dictionary returned by `get_child_issues_by_parent_impl`: either the
success shape (lines 630-639) or the error shape (lines 641-647) built in the
`except` clause. -/
inductive ChildIssuesResult where
  | found (parent_info : ParentInfo) (children : List ChildOut)
      (total_children : Nat)
  | failed (error : String) (parent_key : String) (children : List ChildOut)
      (total_children : Nat)
deriving Repr, DecidableEq

/-- `get_child_issues_by_parent_impl`, lines 596-647: verify the parent
exists, run the JQL search, and format; any exception — the parent's
not-found included — is caught and converted into the ordinary error
dictionary, so the result is always `Except.ok`. -/
def get_child_issues_by_parent_impl
    (fetchParent : String → Except String ParentInfo)
    (searchChildren : String → Except String (List ChildOut))
    (parent_key : String) : Except String ChildIssuesResult :=
  match fetchParent parent_key with
  | Except.error e =>
    Except.ok (ChildIssuesResult.failed
      ("Failed to get child issues: " ++ e) parent_key [] 0)
  | Except.ok parent =>
    match searchChildren parent_key with
    | Except.error e =>
      Except.ok (ChildIssuesResult.failed
        ("Failed to get child issues: " ++ e) parent_key [] 0)
    | Except.ok children =>
      Except.ok (ChildIssuesResult.found parent children children.length)

/-! ### `get_issue_type_custom_fields_by_project_impl` (lines 371-410). -/

/-- Line 384: `campos_ignorar = ['fixVersions','attachment']`. -/
def campos_ignorar : List String := ["fixVersions", "attachment"]

/-- Lines 397-406: the `valor_permitido` dict built from one allowed value,
keeping only its `id`, `value`, `key` and `name` members, in that order. -/
def filterAllowedValue (allowed_value : List (String × JValue)) :
    List (String × JValue) :=
  (match jget allowed_value "id" with
   | some v => [("id", v)] | none => []) ++
  (match jget allowed_value "value" with
   | some v => [("value", v)] | none => []) ++
  (match jget allowed_value "key" with
   | some v => [("key", v)] | none => []) ++
  (match jget allowed_value "name" with
   | some v => [("name", v)] | none => [])

/-- The `item` dict of lines 390-407. -/
structure CampoItem where
  field : String
  name : JValue
  schema : JValue
  allowedValues : List (List (String × JValue))

/-- `get_issue_type_custom_fields_by_project_impl`, lines 371-410.
`createmeta` stands for `data.get('projects')[0].get('issuetypes')[0]
.get('fields')` as a function of the `projectKeys` and `issuetypeNames`
arguments of `jira_client.createmeta`; the code invokes it with the literals
`'ARQPERF'` and `"Tarefa"` (line 385), not with its own parameters.  The
returned `campos` list is what line 410 serializes with
`json.dumps(campos, indent=2, ensure_ascii=True)` — `"[]"` when the list is
empty.  An item is appended only when `field is not None and field == campo`
(lines 408-409). -/
def get_issue_type_custom_fields_by_project_impl
    (createmeta : String → String → List (String × List (String × JValue)))
    (project_key issue_type_name : String) (field : Option String) :
    List CampoItem :=
  let fields := createmeta "ARQPERF" "Tarefa"
  fields.foldl (fun campos entry =>
    if campos_ignorar.contains entry.1 then campos
    else
      let item : CampoItem :=
        { field := entry.1
          name := (jget entry.2 "name").getD JValue.null
          schema :=
            match jget entry.2 "schema" with
            | some (JValue.obj s) => (jget s "type").getD JValue.null
            | _ => JValue.null
          allowedValues :=
            match jget entry.2 "allowedValues" with
            | some (JValue.arr avs) =>
              avs.map (fun av =>
                match av with
                | JValue.obj a => filterAllowedValue a
                | _ => [])
            | _ => [] }
      match field with
      | some f => if f = entry.1 then campos ++ [item] else campos
      | none => campos) []

/-! ## Spec-side definitions

These follow the wording of `spec.md` (not the code) and exist to be
compared against the embedded source functions. -/

/-- Spec wording for list elements: what a structured element "extracts to"
— prefer its `value` member, then its `name` member, nothing when neither
is present. -/
def spec_element_extract (fields : List (String × JValue)) : Option JValue :=
  match jget fields "value" with
  | some v => some v
  | none => jget fields "name"

/-- Spec wording: the treatment of one list element — a structured object's
extracted value is wrapped with the element's `id` when present, and the
element is dropped when it extracted to nothing (a missing or falsy value);
a non-object element passes through unchanged. -/
def spec_normalize_element (item : JValue) : Option JValue :=
  match item with
  | JValue.obj fields =>
    match spec_element_extract fields with
    | some v =>
      if v.truthy then
        some (match jget fields "id" with
              | some idv => JValue.obj [("id", idv), ("value", v)]
              | none => v)
      else none
    | none => none
  | other => some other

/-- Spec wording for an ordered-list raw value: normalize each element, and
if the resulting list is non-empty it becomes the value, otherwise fall back
to the original raw list. -/
def spec_normalize_list (items : List JValue) : JValue :=
  let result := items.filterMap spec_normalize_element
  if result.isEmpty then JValue.arr items else JValue.arr result

/-- Spec wording for a single structured object: prefer the `value` member,
else the `name` member, else the object itself; when an `id` member is also
present, wrap the extracted value as `{id, value}`. -/
def spec_normalize_object (fields : List (String × JValue)) : JValue :=
  let extracted :=
    match jget fields "value" with
    | some v => v
    | none =>
      match jget fields "name" with
      | some v => v
      | none => JValue.obj fields
  match jget fields "id" with
  | some idv => JValue.obj [("id", idv), ("value", extracted)]
  | none => extracted

/-- Spec wording in C4: "the numeric suffix after the last underscore of the
field id". -/
def suffix_after_last_underscore (s : String) : String :=
  (pySplit s '_').getLastD s

/-! ## Helper lemmas -/

theorem processItem_eq_spec (item : JValue) :
    processItem item = spec_normalize_element item := by
  cases item with
  | obj fields =>
    rcases hv : jget fields "value" with _ | v
    · rcases hn : jget fields "name" with _ | n
      · simp [processItem, spec_normalize_element, spec_element_extract, hv,
          hn, JValue.truthy]
      · simp only [processItem, spec_normalize_element, spec_element_extract,
          hv, hn]
        rcases hid : jget fields "id" with _ | idv <;> simp [hid]
    · simp only [processItem, spec_normalize_element, spec_element_extract, hv]
      rcases hid : jget fields "id" with _ | idv <;> simp [hid]
  | null => rfl
  | bool b => rfl
  | num n => rfl
  | str s => rfl
  | arr items => rfl

/-! ## Claims -/

/-- C2: for a raw list value, each structured element is extracted by
preferring its `value` member then its `name` member and wrapped with its
`id` when present, non-object elements pass through, elements extracting to
nothing are dropped, and a non-empty result replaces the raw list while an
empty result falls back to it; in particular
`[{"value": "Tag1"}, {"value": "Tag2"}]` normalizes to `["Tag1", "Tag2"]`
and `[{"x": 1}]` normalizes to the original raw list. -/
theorem list_value_normalization_matches_spec :
    (∀ items : List JValue,
      normalizeValue (JValue.arr items) = spec_normalize_list items) ∧
    normalizeValue (JValue.arr
        [JValue.obj [("value", JValue.str "Tag1")],
         JValue.obj [("value", JValue.str "Tag2")]]) =
      JValue.arr [JValue.str "Tag1", JValue.str "Tag2"] ∧
    normalizeValue (JValue.arr [JValue.obj [("x", JValue.num 1)]]) =
      JValue.arr [JValue.obj [("x", JValue.num 1)]] := by
  refine ⟨fun items => ?_, rfl, rfl⟩
  simp only [normalizeValue, normalizeList, spec_normalize_list]
  rw [show items.filterMap processItem = items.filterMap spec_normalize_element
    from List.filterMap_congr (fun item _ => processItem_eq_spec item)]

/-- C3: a raw single-object value normalizes to its `value` member if
present, else its `name` member if present, else the object itself, and an
`id` member wraps the result as `{id, value}`; in particular
`{"value": "High", "id": "991"}` normalizes to
`{"id": "991", "value": "High"}`. -/
theorem object_value_normalization_matches_spec :
    (∀ fields : List (String × JValue),
      normalizeValue (JValue.obj fields) = spec_normalize_object fields) ∧
    normalizeValue
        (JValue.obj [("value", JValue.str "High"), ("id", JValue.str "991")]) =
      JValue.obj [("id", JValue.str "991"), ("value", JValue.str "High")] :=
  ⟨fun _ => rfl, rfl⟩

theorem drop_one_headD_eq_getLastD (l : List String) (d d' : String)
    (h : l.length = 2) : (l.drop 1).headD d = l.getLastD d' := by
  match l with
  | [a, b] => rfl
  | [] => simp at h
  | [a] => simp at h
  | a :: b :: c :: t => simp [List.length] at h

/-- C4 (counterexample): for the admissible field id `customfield_10_20`
the emitted `id` is `"10"`, the segment after the FIRST underscore, not
`"20"`, the suffix after the last underscore as the claim states. -/
theorem custom_field_id_not_last_underscore_suffix :
    projectCustomFields [] [("customfield_10_20", JValue.str "v")] =
      [("customfield_10_20",
        { id := "10", key := "customfield_10_20",
          name := JValue.str "customfield_10_20",
          value := JValue.str "v" })] ∧
    suffix_after_last_underscore "customfield_10_20" = "20" ∧
    "10" ≠ "20" := ⟨rfl, rfl, by decide⟩

/-- C4 (amended): every record in `custom_fields` is keyed by the field id,
its `id` is the segment after the FIRST underscore of the field id (the
field id itself when it has no underscore) — coinciding with the suffix
after the last underscore whenever the field id contains exactly one
underscore, as in `customfield_10058` —, its `name` is the metadata
descriptor's display name when known and the field id otherwise, and its
`value` is the normalization of the field's non-null raw value. -/
theorem custom_field_record_shape (field_meta : FieldMeta)
    (raw_fields : List (String × JValue)) (fn : String)
    (rec : CustomFieldRecord)
    (h : (fn, rec) ∈ projectCustomFields field_meta raw_fields) :
    rec.key = fn ∧
    (pyContainsChar fn '_' → rec.id = ((pySplit fn '_').drop 1).headD fn) ∧
    (¬ pyContainsChar fn '_' → rec.id = fn) ∧
    (pyContainsChar fn '_' ∧ (pySplit fn '_').length = 2 →
      rec.id = suffix_after_last_underscore fn) ∧
    (List.lookup fn field_meta = none → rec.name = JValue.str fn) ∧
    (∀ info, List.lookup fn field_meta = some info →
      rec.name = (jget info "name").getD (JValue.str fn)) ∧
    ∃ fv, (fn, fv) ∈ raw_fields ∧ ¬ fv.isNull ∧ rec.value = normalizeValue fv := by
  rcases List.mem_filterMap.mp h with ⟨⟨fn', fv⟩, hmem, heq⟩
  simp only at heq
  split at heq
  case isTrue hc =>
    simp only [Option.some.injEq, Prod.mk.injEq] at heq
    obtain ⟨rfl, rfl⟩ := heq
    refine ⟨rfl, ?_, ?_, ?_, ?_, ?_, ⟨fv, hmem, hc.2, rfl⟩⟩
    · intro hct
      simp only [fieldIdOf]
      rw [if_pos hct]
    · intro hct
      simp only [fieldIdOf]
      rw [if_neg hct]
    · rintro ⟨hct, hlen⟩
      simp only [fieldIdOf]
      rw [if_pos hct]
      exact drop_one_headD_eq_getLastD _ _ _ hlen
    · intro hnone
      simp only [resolveFieldName, hnone]
      rfl
    · intro info hinfo
      simp only [resolveFieldName, hinfo]
      rcases hni : jget info "name" with _ | v <;> simp [hni]
  case isFalse hc => cases heq

/-- Witness for the amended C4 at field `customfield_10058` with raw value
`{"value": "High"}` and no metadata, as in the spec's example. -/
theorem custom_field_record_shape_witness :
    ({ id := "10058", key := "customfield_10058",
       name := JValue.str "customfield_10058",
       value := JValue.str "High" } : CustomFieldRecord).key =
        "customfield_10058" ∧
    ({ id := "10058", key := "customfield_10058",
       name := JValue.str "customfield_10058",
       value := JValue.str "High" } : CustomFieldRecord).id =
      suffix_after_last_underscore "customfield_10058" := by
  have h : ("customfield_10058",
      ({ id := "10058", key := "customfield_10058",
         name := JValue.str "customfield_10058",
         value := JValue.str "High" } : CustomFieldRecord)) ∈
      projectCustomFields []
        [("customfield_10058", JValue.obj [("value", JValue.str "High")])] :=
    List.mem_singleton.mpr rfl
  have hmain := custom_field_record_shape _ _ _ _ h
  exact ⟨hmain.1, hmain.2.2.2.1 ⟨by decide, by decide⟩⟩

/-- C1: the claim asserts that fields in the effective blacklist are absent
from `custom_fields`, but `get_issue_details_impl` never consults
`get_blacklisted_fields`: for a `Subtarefa` issue carrying a non-null value
for `customfield_10136` — blacklisted for that type — the field is present
in the returned `custom_fields`. -/
theorem blacklisted_field_not_suppressed :
    "customfield_10136" ∈ get_blacklisted_fields "Subtarefa" ∧
    (get_issue_details_impl []
      { key := "ARQPERF-1", summary := "t", description := some "d",
        issuetype := "Subtarefa", status := "Open", project := "ARQPERF",
        parent := none, assignee := none, priority := none, created := "c",
        updated := "u", subtasks := [],
        raw_fields := [("customfield_10136",
          JValue.obj [("value", JValue.str "Team A")])] }).custom_fields =
      [("customfield_10136",
        { id := "10136", key := "customfield_10136",
          name := JValue.str "customfield_10136",
          value := JValue.str "Team A" })] := ⟨by decide, rfl⟩

/-- C5: a second `store_issue` for an already-stored key leaves exactly one
row for that key; the row takes the second call's `title` and `status` and
a refreshed `last_updated`, while `type`, `parent_key` and `created_at`
keep the first insert's values. -/
theorem store_issue_upsert (issues : List IssueRow) (now1 now2 : Nat)
    (key ty1 ti1 ty2 ti2 : String) (p1 s1 p2 s2 : Option String)
    (h : ∀ r ∈ issues, r.key ≠ key) :
    (store_issue (store_issue issues now1 key ty1 ti1 p1 s1)
        now2 key ty2 ti2 p2 s2).filter (fun r => r.key == key) =
      [{ key := key, type := ty1, title := ti2, parent_key := p1,
         status := s2, created_at := now1, last_updated := now2 }] := by
  have hany : issues.any (fun r => r.key == key) = false := by
    rw [List.any_eq_false]
    intro r hr
    simpa using h r hr
  have hfresh : store_issue issues now1 key ty1 ti1 p1 s1 =
      issues ++ [{ key := key, type := ty1, title := ti1, parent_key := p1,
                   status := s1, created_at := now1, last_updated := now1 }] := by
    simp [store_issue, hany]
  rw [hfresh, store_issue]
  rw [if_pos (by simp [List.any_append])]
  rw [List.map_append, List.filter_append]
  have hleft : ((issues.map (fun r =>
      if r.key == key then
        { r with title := ti2, status := s2, last_updated := now2 }
      else r)).filter (fun r => r.key == key)) = [] := by
    rw [List.filter_eq_nil_iff]
    intro a ha
    rcases List.mem_map.mp ha with ⟨r, hr, rfl⟩
    have hne : (r.key == key) = false := by simpa using h r hr
    simp [hne]
  rw [hleft]
  simp

/-- Witness for C5 at the spec's example: `store_issue("X-1", "Task",
"Title A")` then `store_issue("X-1", "Task", "Title B", status="Open")`. -/
theorem store_issue_upsert_witness :
    (store_issue (store_issue [] 0 "X-1" "Task" "Title A" none none)
        1 "X-1" "Task" "Title B" none (some "Open")).filter
          (fun r => r.key == "X-1") =
      [{ key := "X-1", type := "Task", title := "Title B", parent_key := none,
         status := some "Open", created_at := 0, last_updated := 1 }] :=
  store_issue_upsert [] 0 1 "X-1" "Task" "Title A" "Task" "Title B"
    none none none (some "Open") (by simp)

/-- C6: `update_issue_status` is supposed to append exactly one transition
row with an auto-incrementing id, but the `INSERT INTO transitions` names no
`id` while `id BIGINT PRIMARY KEY` has neither a default nor a sequence in
DuckDB, so every call fails with a NOT NULL constraint error and appends
nothing. -/
theorem update_issue_status_insert_always_fails :
    update_issue_status
      [{ key := "X-1", type := "Task", title := "Title A", parent_key := none,
         status := some "Open", created_at := 0, last_updated := 0 }]
      [] 1 "X-1" "Done" (some "Open") =
    Except.error
      "Constraint Error: NOT NULL constraint failed: transitions.id" := rfl

theorem findTransitionId_eq_none (transitions : List Transition)
    (transition_name : String)
    (h : ∀ t ∈ transitions, pyLower t.name ≠ pyLower transition_name) :
    findTransitionId transitions transition_name = none := by
  induction transitions with
  | nil => rfl
  | cons t rest ih =>
    rw [findTransitionId, if_neg (h t (List.mem_cons_self t rest))]
    exact ih (fun t' ht' => h t' (List.mem_cons_of_mem t ht'))

theorem findTransitionId_isSome (transitions : List Transition)
    (transition_name : String) (t : Transition) (ht : t ∈ transitions)
    (hname : pyLower t.name = pyLower transition_name) :
    (findTransitionId transitions transition_name).isSome := by
  induction transitions with
  | nil => cases ht
  | cons t0 rest ih =>
    rw [findTransitionId]
    by_cases h0 : pyLower t0.name = pyLower transition_name
    · rw [if_pos h0]
      rfl
    · rw [if_neg h0]
      rcases List.mem_cons.mp ht with rfl | hmem
      · exact absurd hname h0
      · exact ih hmem

/-- C7: the requested transition name is matched case-insensitively against
the available transitions; when none matches, `transition_jira_issue_impl`
raises a `ValueError` whose message lists every available transition name,
and no transition is performed; when one matches, the transition is
performed. -/
theorem transition_matching_behaviour (transitions : List Transition)
    (issue_key transition_name : String) :
    ((∀ t ∈ transitions, pyLower t.name ≠ pyLower transition_name) →
      transition_jira_issue_impl transitions issue_key transition_name =
        Except.error ("Transition '" ++ transition_name ++
          "' not found. Available transitions: " ++
          String.intercalate ", " (transitions.map Transition.name))) ∧
    (∀ t ∈ transitions, pyLower t.name = pyLower transition_name →
      ∃ r, transition_jira_issue_impl transitions issue_key transition_name =
        Except.ok r) := by
  constructor
  · intro h
    simp only [transition_jira_issue_impl,
      findTransitionId_eq_none transitions transition_name h]
  · intro t ht hname
    have hs := findTransitionId_isSome transitions transition_name t ht hname
    rcases hfid : findTransitionId transitions transition_name with _ | tid
    · rw [hfid] at hs
      cases hs
    · refine ⟨(tid, "Successfully transitioned " ++ issue_key ++
        " using transition '" ++ transition_name ++ "'"), ?_⟩
      simp only [transition_jira_issue_impl, hfid]

/-- Witness for C7: with available transitions `In Progress` and `Done`,
requesting `Cancel` raises the error listing both; requesting `dOnE`
matches `Done` case-insensitively and performs the transition. -/
theorem transition_matching_behaviour_witness :
    transition_jira_issue_impl
        [{ name := "In Progress", id := "21" }, { name := "Done", id := "31" }]
        "PROJ-1" "Cancel" =
      Except.error ("Transition '" ++ "Cancel" ++
        "' not found. Available transitions: " ++
        String.intercalate ", "
          ([{ name := "In Progress", id := "21" },
            { name := "Done", id := "31" }].map Transition.name)) ∧
    ∃ r, transition_jira_issue_impl
        [{ name := "In Progress", id := "21" }, { name := "Done", id := "31" }]
        "PROJ-1" "dOnE" = Except.ok r :=
  ⟨(transition_matching_behaviour _ "PROJ-1" "Cancel").1 (by decide),
   (transition_matching_behaviour _ "PROJ-1" "dOnE").2
     { name := "Done", id := "31" } (by decide) (by decide)⟩

/-- C8: a null, empty or whitespace-only description projects to the fixed
sentinel "Sem Descrição", for the issue itself and for every subtask,
regardless of issue type; any other description passes through verbatim. -/
theorem blank_description_projects_to_sentinel (field_meta : FieldMeta)
    (issue : RawIssue) :
    ((issue.description = none ∨ issue.description = some "" ∨
        (∃ d, issue.description = some d ∧ pyStrip d = "")) →
      (get_issue_details_impl field_meta issue).description = "Sem Descrição") ∧
    (∀ d, issue.description = some d → d ≠ "" → pyStrip d ≠ "" →
      (get_issue_details_impl field_meta issue).description = d) ∧
    (∀ st ∈ issue.subtasks,
      ∃ o ∈ (get_issue_details_impl field_meta issue).subtasks,
        o.key = st.key ∧
        ((st.description = none ∨ st.description = some "" ∨
            (∃ d, st.description = some d ∧ pyStrip d = "")) →
          o.description = "Sem Descrição") ∧
        (∀ d, st.description = some d → d ≠ "" → pyStrip d ≠ "" →
          o.description = d)) := by
  have hblank : ∀ od : Option String,
      (od = none ∨ od = some "" ∨ (∃ d, od = some d ∧ pyStrip d = "")) →
      normalizeDescription od = "Sem Descrição" := by
    rintro od (rfl | rfl | ⟨d, rfl, hd⟩)
    · rfl
    · simp [normalizeDescription]
    · simp [normalizeDescription, hd]
  have hpass : ∀ d : String, d ≠ "" → pyStrip d ≠ "" →
      normalizeDescription (some d) = d := by
    intro d h1 h2
    simp [normalizeDescription, h1, h2]
  refine ⟨fun hb => hblank issue.description hb,
    fun d hd h1 h2 => ?_, fun st hst => ?_⟩
  · show normalizeDescription issue.description = d
    rw [hd]
    exact hpass d h1 h2
  · refine ⟨_, List.mem_map_of_mem _ hst, rfl,
      fun hb => hblank st.description hb, fun d hd h1 h2 => ?_⟩
    show normalizeDescription st.description = d
    rw [hd]
    exact hpass d h1 h2

/-- Witness for C8 at a `Tarefa` issue whose description is three blanks
and whose single subtask has a null description. -/
theorem blank_description_projects_to_sentinel_witness :
    (get_issue_details_impl []
      { key := "P-1", summary := "s", description := some "   ",
        issuetype := "Tarefa", status := "Open", project := "P",
        parent := none, assignee := none, priority := none, created := "",
        updated := "",
        subtasks := [{ key := "P-2", summary := "sub", description := none,
                       status := "Open", issuetype := "SubTarefa",
                       assignee := none, priority := none }],
        raw_fields := [] }).description = "Sem Descrição" :=
  (blank_description_projects_to_sentinel []
    { key := "P-1", summary := "s", description := some "   ",
      issuetype := "Tarefa", status := "Open", project := "P",
      parent := none, assignee := none, priority := none, created := "",
      updated := "",
      subtasks := [{ key := "P-2", summary := "sub", description := none,
                     status := "Open", issuetype := "SubTarefa",
                     assignee := none, priority := none }],
      raw_fields := [] }).1
    (Or.inr (Or.inr ⟨"   ", rfl, by decide⟩))

/-- C9 (counterexample): when the upstream fetch fails with a not-found,
both the comment-reading and the child-issue-listing paths catch the
exception and return an ordinary value (`Except.ok`, carrying the error
string resp. the error dictionary) instead of raising the condition. -/
theorem not_found_swallowed_on_read_paths :
    get_last_comments_impl (fun _ => Except.error "Issue Does Not Exist")
        "PROJ-1" 5 =
      Except.ok (Sum.inl "❌ Failed to get comments: Issue Does Not Exist") ∧
    get_child_issues_by_parent_impl
        (fun _ => Except.error "Issue Does Not Exist")
        (fun _ => Except.ok []) "PROJ-1" =
      Except.ok (ChildIssuesResult.failed
        "Failed to get child issues: Issue Does Not Exist" "PROJ-1" [] 0) :=
  ⟨rfl, rfl⟩

/-- C9 (amended): on the comment-reading and child-issue-listing paths,
every upstream error — a not-found included — is caught and converted into
an ordinary return value embedding the error message; the condition is not
raised to the caller. -/
theorem upstream_error_converted_to_return_value
    (fetchComments : String → Except String (List CommentOut))
    (fetchParent : String → Except String ParentInfo)
    (searchChildren : String → Except String (List ChildOut))
    (issue_key parent_key e : String) (n : Int)
    (hc : fetchComments issue_key = Except.error e)
    (hp : fetchParent parent_key = Except.error e) :
    get_last_comments_impl fetchComments issue_key n =
      Except.ok (Sum.inl ("❌ Failed to get comments: " ++ e)) ∧
    get_child_issues_by_parent_impl fetchParent searchChildren parent_key =
      Except.ok (ChildIssuesResult.failed
        ("Failed to get child issues: " ++ e) parent_key [] 0) := by
  constructor
  · simp only [get_last_comments_impl, hc]
  · simp only [get_child_issues_by_parent_impl, hp]

/-- Witness for the amended C9 at a concrete failing fetch. -/
theorem upstream_error_converted_to_return_value_witness :
    get_last_comments_impl (fun _ => Except.error "404") "PROJ-9" 3 =
      Except.ok (Sum.inl ("❌ Failed to get comments: " ++ "404")) ∧
    get_child_issues_by_parent_impl (fun _ => Except.error "404")
        (fun _ => Except.ok []) "PROJ-9" =
      Except.ok (ChildIssuesResult.failed
        ("Failed to get child issues: " ++ "404") "PROJ-9" [] 0) :=
  upstream_error_converted_to_return_value
    (fun _ => Except.error "404") (fun _ => Except.error "404")
    (fun _ => Except.ok []) "PROJ-9" "PROJ-9" "404" 3 rfl rfl

/-- C10: `get_issue_type_custom_fields_by_project_impl` queries the
metadata with the hardcoded project `ARQPERF` and issue type `Tarefa`, so
its result does not depend on the `project_key` and `issue_type_name`
arguments; and with `field = None` nothing is ever appended, so it
describes no fields at all (line 410 then serializes the empty list to
`"[]"`). -/
theorem custom_fields_listing_ignores_arguments
    (createmeta : String → String → List (String × List (String × JValue)))
    (pk1 it1 pk2 it2 : String) (field : Option String) :
    get_issue_type_custom_fields_by_project_impl createmeta pk1 it1 field =
      get_issue_type_custom_fields_by_project_impl createmeta pk2 it2 field ∧
    get_issue_type_custom_fields_by_project_impl createmeta pk1 it1 none =
      [] := by
  constructor
  · rfl
  · show (createmeta "ARQPERF" "Tarefa").foldl _ [] = []
    generalize createmeta "ARQPERF" "Tarefa" = fields
    induction fields with
    | nil => rfl
    | cons entry rest ih =>
      rw [List.foldl_cons]
      rcases hig : campos_ignorar.contains entry.1 with _ | _
      · simp [hig]
      · simpa only [hig, if_true] using ih

end JiraTools
